import Mathlib

/-!
Shallow embedding of the core retrieval engine of the
`crypto-related-python-apis` repository:

* `src/helperclass_timer.py`                       — rate limiter (`Timer`)
* `src/helpers/class_percent_tracker.py`           — progress tracker (`PercentTracker`)
* `src/class_api_interactions_moralis.py`          — cursor pagination + single-call executor
* `src/api_interaction_classes/class_api_interactions_moralis.py`
                                                   — older cursor-pagination variant
* `src/class_api_interactions_tatum.py`            — offset pagination
* `src/class_selenium_opensea.py`                  — bulk per-item retry runner

Python floats are IEEE-754 binary64; the `PercentTracker`, whose observable
behaviour (which updates emit) depends on double rounding, is modelled over an
executable binary64 model (`F64`: exact dyadic value, correct rounding after
every operation).  The `Timer`'s wall-clock quantities are idealized as exact
rationals `ℚ` (sleeping and reading the clock are exact); the properties proved
about it are spacing inequalities that hold of the idealized clock.
Python runtime faults (TypeError on subscripting `None`, KeyError on a
missing dictionary key, ZeroDivisionError) are modelled with `Except PyError`.
A fuel argument bounds `while` loops; running out of fuel is the distinct
outcome `PyError.outOfFuel`, which never occurs in the scenarios proved below.
-/

/-- Python runtime faults that the embedded code can raise. -/
inductive PyError : Type where
  /-- `TypeError: 'NoneType' object is not subscriptable` — raised when the
  code subscripts the `None` returned by a failed single API call. -/
  | typeError : PyError
  /-- `KeyError` on a missing dictionary key (carries the key). -/
  | keyError (key : String) : PyError
  /-- `ZeroDivisionError` from `/` with a zero denominator. -/
  | zeroDivisionError : PyError
  /-- Modelling artifact: the loop fuel ran out (does not exist in Python). -/
  | outOfFuel : PyError
  deriving DecidableEq, Repr

/-! ## Timer (`src/helperclass_timer.py`)

`Timer.__init__` stores `start_time = 0` and `__limit_as_decimal = 1 / rate_limit`;
`reset` stores the current wall-clock time; `wait_until_allowed` sleeps for the
remainder of the interval and optionally resets.  `time.sleep(d)` is modelled as
advancing the wall clock by exactly `d`. -/

/-- State of `helperclass_timer.Timer`: the last reset timestamp and the
minimum interval `1 / rate_limit` between calls. -/
structure Timer where
  start_time : ℚ
  limit_as_decimal : ℚ
  deriving DecidableEq, Repr

namespace Timer

/-- `Timer.__init__(rate_limit)`: `start_time = 0`,
`__limit_as_decimal = 1 / rate_limit`.  Python's `1 / 0` raises
`ZeroDivisionError`; any nonzero rate (positive or negative) is accepted. -/
def init (rate_limit : ℚ) : Except PyError Timer :=
  if rate_limit = 0 then .error .zeroDivisionError
  else .ok { start_time := 0, limit_as_decimal := 1 / rate_limit }

/-- `Timer.reset`: sets `start_time` to the current wall-clock time `now`. -/
def reset (t : Timer) (now : ℚ) : Timer :=
  { t with start_time := now }

/-- `Timer.wait_until_allowed(include_reset)`: computes the elapsed time since
the last reset; if it is below the interval, sleeps for the difference (the
returned `ℚ` is the wall-clock time at which the method returns); then
optionally resets.  Returns (time at return, new timer state). -/
def wait_until_allowed (t : Timer) (now : ℚ) (include_reset : Bool) : ℚ × Timer :=
  let ellapsed_time := now - t.start_time
  let now' := if ellapsed_time < t.limit_as_decimal
              then now + (t.limit_as_decimal - ellapsed_time)
              else now
  (now', if include_reset then t.reset now' else t)

end Timer

/-- A sequence of rate-limit-gated calls: each entry `w` of `works` is the extra
time the caller spends before invoking `wait_until_allowed(include_reset=True)`
for the next call.  Returns the wall-clock times at which the gated calls are
made (the instants `wait_until_allowed` returns). -/
def gatedCallTimes (t : Timer) (now : ℚ) : List ℚ → List ℚ
  | [] => []
  | w :: ws =>
    let r := t.wait_until_allowed (now + w) true
    r.1 :: gatedCallTimes r.2 r.1 ws

/-! ## IEEE-754 binary64 model

Python floats are IEEE-754 binary64 values.  A finite double is represented as
a dyadic rational `m * 2^e` (`F64`, representation not canonicalized); every
arithmetic operation computes the exact rational result and rounds it to 53
significant bits, round-to-nearest with ties to even, with gradual underflow
below `2^-1022` (quantum clamped at `2^-1074`) — IEEE semantics for finite
results.  Overflow to infinity (magnitude at least `2^1024`) and NaNs are
outside the model; nothing in the claims' scenarios comes near them.  Python
ints appearing in float arithmetic are embedded through their double value,
exact below `2^53` (every count and total here is far smaller). -/

/-- A finite binary64 value `m * 2^e`. -/
structure F64 where
  m : ℤ
  e : ℤ
  deriving DecidableEq, Repr

namespace F64

/-- `⌊log2 n⌋` by fuelled halving (the fuel bounds the bit length; 1100 covers
every number the rounding below can produce). -/
def log2Aux : ℕ → ℕ → ℕ
  | 0, _ => 0
  | fuel + 1, n => if n < 2 then 0 else log2Aux fuel (n / 2) + 1

/-- Does `2^d ≤ a / b` hold (`a, b ≥ 1`)? -/
def pow2Le (d : ℤ) (a b : ℕ) : Bool :=
  if 0 ≤ d then b * 2 ^ d.toNat ≤ a else b ≤ a * 2 ^ (-d).toNat

/-- `⌊log2 (a / b)⌋` for `a, b ≥ 1`. -/
def ratLog2 (a b : ℕ) : ℤ :=
  let d : ℤ := (log2Aux 1100 a : ℤ) - (log2Aux 1100 b : ℤ)
  if pow2Le d a b then d else d - 1

/-- Round the positive rational `a / b` to binary64: quantum `2^k` with
`k = max (⌊log2 (a/b)⌋ - 52) (-1074)`; round to nearest, ties to even. -/
def roundPos (a b : ℕ) : F64 :=
  let e := ratLog2 a b
  let k := max (e - 52) (-1074)
  let num := if 0 ≤ k then a else a * 2 ^ (-k).toNat
  let den := if 0 ≤ k then b * 2 ^ k.toNat else b
  let q := num / den
  let r := num % den
  let q' := if 2 * r < den then q
            else if den < 2 * r then q + 1
            else if q % 2 = 0 then q else q + 1
  ⟨(q' : ℤ), k⟩

/-- Round the rational `num / den` (`den ≠ 0`) to binary64 (rounding commutes
with negation, ties-to-even being symmetric). -/
def roundFrac (num den : ℤ) : F64 :=
  if num = 0 then ⟨0, 0⟩
  else
    let neg := decide ((num < 0) ≠ (den < 0))
    let r := roundPos num.natAbs den.natAbs
    if neg then ⟨-r.m, r.e⟩ else r

/-- Round the dyadic `m * 2^e` to binary64. -/
def roundDyadic (m : ℤ) (e : ℤ) : F64 :=
  if 0 ≤ e then roundFrac (m * 2 ^ e.toNat) 1 else roundFrac m (2 ^ (-e).toNat)

/-- Embedding of a Python non-negative int (exact below `2^53`). -/
def ofNat (n : ℕ) : F64 := roundFrac (n : ℤ) 1

/-- The double 0.0 (also the embedding of the int 0). -/
def zero : F64 := ⟨0, 0⟩

/-- IEEE addition: round the exact sum. -/
def fadd (x y : F64) : F64 :=
  let e := min x.e y.e
  roundDyadic (x.m * 2 ^ (x.e - e).toNat + y.m * 2 ^ (y.e - e).toNat) e

/-- IEEE subtraction (negation is exact). -/
def fsub (x y : F64) : F64 := fadd x ⟨-y.m, y.e⟩

/-- IEEE multiplication: round the exact product. -/
def fmul (x y : F64) : F64 := roundDyadic (x.m * y.m) (x.e + y.e)

/-- IEEE division (`y ≠ 0`): round the exact quotient. -/
def fdiv (x y : F64) : F64 :=
  let d := x.e - y.e
  if 0 ≤ d then roundFrac (x.m * 2 ^ d.toNat) y.m
  else roundFrac x.m (y.m * 2 ^ (-d).toNat)

/-- Value comparison `x < y` (finite doubles compare as their exact values). -/
def blt (x y : F64) : Bool :=
  let e := min x.e y.e
  decide (x.m * 2 ^ (x.e - e).toNat < y.m * 2 ^ (y.e - e).toNat)

/-- Value comparison `x ≤ y`. -/
def ble (x y : F64) : Bool :=
  let e := min x.e y.e
  decide (x.m * 2 ^ (x.e - e).toNat ≤ y.m * 2 ^ (y.e - e).toNat)

/-- Value equality (Python `==` / `!=` on finite doubles). -/
def beq (x y : F64) : Bool := ble x y && ble y x

/-- Is a list of doubles pairwise non-decreasing in value? -/
def leChain : List F64 → Bool
  | [] => true
  | [_] => true
  | x :: y :: l => ble x y && leChain (y :: l)

end F64

/-- Python float division `a / b`: raises `ZeroDivisionError` when the divisor
is zero, otherwise correctly rounded. -/
def pydiv64 (a b : F64) : Except PyError F64 :=
  if F64.beq b F64.zero then .error .zeroDivisionError else .ok (F64.fdiv a b)

/-! ## PercentTracker (`src/helpers/class_percent_tracker.py`)

Only the fields that feed back into behaviour are kept, plus the timestamps
used by the ETA computation; the log-destination configuration flags only
route the same messages and are dropped.  All numeric fields are doubles
(Python ints entering them are embedded exactly).  `update_progress` returns
the events it would emit: whether a progress line is printed, and the ETA
value if an ETA line is printed. -/

/-- State of `class_percent_tracker.PercentTracker`. -/
structure PercentTracker where
  max_loop_number : F64
  float_percent_counter : F64
  previous_time : F64
  start_time : F64
  float_print_every_x_percent : F64
  deriving DecidableEq, Repr

/-- Events emitted by one `update_progress` call: `emitted` is true when the
elapsed/percent-complete messages are produced; `eta` holds the
`estimate_time_remaining` value when the ETA message is produced. -/
structure ProgressEvents where
  emitted : Bool
  eta : Option F64
  deriving DecidableEq, Repr

namespace PercentTracker

/-- `PercentTracker.__init__(max_value_of_loop, int_output_every_x_percent=10)`
at wall-clock time `now`: stores `int_output_every_x_percent / 100` (float
true division).  No guard against `max_value_of_loop = 0`. -/
def init (max_value_of_loop int_output_every_x_percent now : F64) :
    PercentTracker :=
  { max_loop_number := max_value_of_loop
    float_percent_counter := F64.zero
    previous_time := F64.zero
    start_time := now
    float_print_every_x_percent :=
      F64.fdiv int_output_every_x_percent (F64.ofNat 100) }

/-- `PercentTracker.update_progress(counter, show_time_remaining_estimate)` at
wall-clock time `now`.  `float_progress = counter / self.max_loop_number` can
raise `ZeroDivisionError`.  Output is produced only when the progress fraction
strictly exceeds the current threshold `float_percent_counter`; the ETA
message is additionally gated on `show_time_remaining_estimate` and on
`float_percent_counter != 0`; afterwards the threshold advances by
`float_print_every_x_percent` (a float addition, hence rounded). -/
def update_progress (t : PercentTracker) (counter : F64) (now : F64)
    (show_time_remaining_estimate : Bool) :
    Except PyError (PercentTracker × ProgressEvents) :=
  match pydiv64 counter t.max_loop_number with
  | .error e => .error e
  | .ok float_progress =>
    if F64.blt t.float_percent_counter float_progress then
      let time_elapsed := F64.fsub now t.start_time
      match pydiv64 (F64.fmul time_elapsed t.max_loop_number) counter with
      | .error e => .error e
      | .ok estimate_total_time =>
        let estimate_time_remaining := F64.fsub estimate_total_time time_elapsed
        let eta := if show_time_remaining_estimate ∧
                      ¬(F64.beq t.float_percent_counter F64.zero)
                   then some estimate_time_remaining else none
        .ok ({ t with
                previous_time := now
                float_percent_counter :=
                  F64.fadd t.float_percent_counter t.float_print_every_x_percent },
             { emitted := true, eta := eta })
    else
      .ok (t, { emitted := false, eta := none })

end PercentTracker

/-- Feed a list of (Python int) counter values to a `PercentTracker` in order
(at a fixed wall-clock time, with no ETA requested).  Returns the final
tracker state, the counters at which a progress event was emitted, and the
trace of threshold values (`float_percent_counter`) after each update. -/
def trackerRun (t : PercentTracker) :
    List ℕ → Except PyError (PercentTracker × List ℕ × List F64)
  | [] => .ok (t, [], [])
  | c :: cs =>
    match t.update_progress (F64.ofNat c) F64.zero false with
    | .error e => .error e
    | .ok r =>
      match trackerRun r.1 cs with
      | .error e => .error e
      | .ok rest =>
        .ok (rest.1, (if r.2.emitted then c :: rest.2.1 else rest.2.1),
             r.1.float_percent_counter :: rest.2.2)

/-! ## Single-call executor (`__make_one_api_call`, identical in
`src/class_api_interactions_moralis.py` and `src/class_api_interactions_tatum.py`)

The network itself is an external collaborator, modelled as a function from the
chosen request method and argument list to either a transport fault (the
`except` branch around the `requests` call) or a raw response whose body is
empty, undecodable, or decodes to a payload (the `json.loads` step). -/

/-- The four `requests` session methods the call-type dispatch can select. -/
inductive HttpMethod : Type where
  | get | post | put | delete
  deriving DecidableEq, Repr

/-- `__organize_api_call_method_and_arguments`: maps the `call_type` string to
a session method and its positional arguments; any other string logs an error
and yields an empty dictionary (here `none`). -/
def organize_api_call_method_and_arguments (api_url call_type call_body : String) :
    Option (HttpMethod × List String) :=
  let api_method : Option HttpMethod :=
    if call_type = "get" then some .get
    else if call_type = "post" then some .post
    else if call_type = "put" then some .put
    else if call_type = "delete" then some .delete
    else none
  match api_method with
  | none => none
  | some m =>
    some (m, if call_type = "post" ∨ call_type = "put"
             then [api_url, call_body] else [api_url])

/-- Body of a raw network response: `none` models an empty
`raw_response.content`; `some (.error _)` a body on which `json.loads` raises
(caught and logged, leaving `response_object = None`); `some (.ok b)` a body
decoding to `b`. -/
structure RawResponse (β : Type) where
  content : Option (Except PyError β)

/-- Everything observable about one `__make_one_api_call` invocation: the
returned `response_object`, the timer state and wall-clock time afterwards,
whether `wait_until_allowed` was invoked, and whether the network request was
attempted. -/
structure CallOutcome (β : Type) where
  response : Option β
  timer : Timer
  now : ℚ
  consulted_rate_limiter : Bool
  network_attempted : Bool
  deriving Repr

/-- `__make_one_api_call`: organizes method and arguments (returning early with
`None` when the call type is unsupported), then gates on
`wait_until_allowed(include_reset=True)`, performs the network operation
(transport faults caught, logged, early `None` return), and decodes a
non-empty body (decode faults caught and logged, `response_object` left
`None`). -/
def make_one_api_call {β : Type}
    (net : HttpMethod → List String → Except Unit (RawResponse β))
    (api_url call_type call_body : String) (timer : Timer) (now : ℚ) :
    CallOutcome β :=
  match organize_api_call_method_and_arguments api_url call_type call_body with
  | none =>
    { response := none, timer := timer, now := now
      consulted_rate_limiter := false, network_attempted := false }
  | some (api_method, api_method_args) =>
    let w := timer.wait_until_allowed now true
    match net api_method api_method_args with
    | .error _ =>
      { response := none, timer := w.2, now := w.1
        consulted_rate_limiter := true, network_attempted := true }
    | .ok raw =>
      let response_object : Option β :=
        match raw.content with
        | none => none
        | some (.error _) => none
        | some (.ok b) => some b
      { response := response_object, timer := w.2, now := w.1
        consulted_rate_limiter := true, network_attempted := true }

/-! ## Return shaping (tail of `__get_full_data_set_from_api` in both the
Moralis and Tatum classes)

`if 'dataframe' in return_as: return pd.DataFrame(full_data_set)`
`elif 'list' in return_as: return full_data_set`
(falling off the end returns `None`). -/

/-- Python's `needle in haystack` substring test on strings. -/
def strContains (haystack needle : String) : Bool :=
  decide (needle.data <:+: haystack.data)

/-- The two shapes `__get_full_data_set_from_api` can return. -/
inductive PaginationReturn (α : Type) : Type where
  /-- `pd.DataFrame(full_data_set)` -/
  | dataframe (rows : List α) : PaginationReturn α
  /-- the raw `full_data_set` list -/
  | list (records : List α) : PaginationReturn α
  deriving DecidableEq, Repr

/-- The `return_as` dispatch at the end of `__get_full_data_set_from_api`:
substring tests against `'dataframe'` and `'list'`; any other value falls off
the end of the method, returning `None`. -/
def shapeReturn {α : Type} (return_as : String) (full_data_set : List α) :
    Option (PaginationReturn α) :=
  if strContains return_as "dataframe" then some (.dataframe full_data_set)
  else if strContains return_as "list" then some (.list full_data_set)
  else none

/-! ## Cursor pagination (`MoralisAPIinteractions.__get_full_data_set_from_api`)

Two variants exist in the repository:
* `src/class_api_interactions_moralis.py` (lines 316–364): appends the page's
  `result` whenever the response's `total` is positive, then advances or stops
  on the `cursor`;
* `src/api_interaction_classes/class_api_interactions_moralis.py`
  (lines 110–155): reads `total` only on the first iteration and appends the
  page's `result` only inside the `if cursor:` branch, so the final page
  (empty cursor) is never appended.

The provider is a function from the call index to the `response_object` the
single-call executor produced for that call (`none` = transport or decode
failure).  Subscripting a `none` response raises `TypeError`; a missing key
raises `KeyError`.  The query-parameter dictionary's `cursor` entry is the
`Option String` threaded through the loop; each issued call records the cursor
parameter it carried. -/

/-- A decoded Moralis page: the `total`, `result` and `cursor` fields of the
JSON object, each possibly absent. -/
structure MoralisResp (α : Type) : Type where
  total : Option Int
  result : Option (List α)
  cursor : Option String
  deriving Repr

/-- Python subscripting `resp[key]`: `TypeError` when the response is `None`,
`KeyError` when the key is absent. -/
def pyItem {α β : Type} (resp : Option α) (proj : α → Option β) (key : String) :
    Except PyError β :=
  match resp with
  | none => .error .typeError
  | some r =>
    match proj r with
    | none => .error (.keyError key)
    | some v => .ok v

namespace Moralis

/-- The `while there_are_likely_more_results` loop of the current
(`src/class_api_interactions_moralis.py`) variant.  Arguments: fuel, call
index, the `cursor` query parameter, `full_data_set`, and the cursor
parameters of the calls issued so far.  The percent tracker constructed on the
first iteration only logs and is omitted.  Returns (cursor parameter of each
issued call, accumulated records). -/
def paginationLoop {α : Type} (provider : ℕ → Option (MoralisResp α)) :
    ℕ → ℕ → Option String → List α → List (Option String) →
    Except PyError (List (Option String) × List α)
  | 0, _, _, _, _ => .error .outOfFuel
  | fuel + 1, i, cursorParam, full_data_set, calls =>
    let api_response := provider i
    let calls' := calls ++ [cursorParam]
    match pyItem api_response (fun r => r.total) "total" with
    | .error e => .error e
    | .ok size_data_set =>
      match (if 0 < size_data_set then
               match pyItem api_response (fun r => r.result) "result" with
               | .error e => .error e
               | .ok res => .ok (full_data_set ++ res)
             else .ok full_data_set : Except PyError (List α)) with
      | .error e => .error e
      | .ok full_data_set' =>
        match pyItem api_response (fun r => r.cursor) "cursor" with
        | .error e => .error e
        | .ok cursor =>
          if cursor ≠ "" then
            paginationLoop provider fuel (i + 1) (some cursor) full_data_set' calls'
          else
            .ok (calls', full_data_set')

/-- `__get_full_data_set_from_api` of the current variant: the pagination loop
followed by the `return_as` dispatch. -/
def get_full_data_set_from_api {α : Type} (provider : ℕ → Option (MoralisResp α))
    (fuel : ℕ) (return_as : String) :
    Except PyError (Option (PaginationReturn α)) :=
  match paginationLoop provider fuel 0 none [] [] with
  | .error e => .error e
  | .ok r => .ok (shapeReturn return_as r.2)

end Moralis

namespace MoralisOld

/-- The `while` loop of the older
(`src/api_interaction_classes/class_api_interactions_moralis.py`) variant:
`total` is read only on the first iteration, and the page's `result` is
appended only when the cursor is non-empty, so the final page is dropped. -/
def paginationLoop {α : Type} (provider : ℕ → Option (MoralisResp α)) :
    ℕ → ℕ → Option String → Bool → List α → List (Option String) →
    Except PyError (List (Option String) × List α)
  | 0, _, _, _, _, _ => .error .outOfFuel
  | fuel + 1, i, cursorParam, is_first_loop_iteration, full_data_set, calls =>
    let api_response := provider i
    let calls' := calls ++ [cursorParam]
    match (if is_first_loop_iteration then
             match pyItem api_response (fun r => r.total) "total" with
             | .error e => .error e
             | .ok _ => .ok ()
           else .ok () : Except PyError Unit) with
    | .error e => .error e
    | .ok _ =>
      match pyItem api_response (fun r => r.cursor) "cursor" with
      | .error e => .error e
      | .ok cursor =>
        if cursor ≠ "" then
          match pyItem api_response (fun r => r.result) "result" with
          | .error e => .error e
          | .ok res =>
            paginationLoop provider fuel (i + 1) (some cursor) false
              (full_data_set ++ res) calls'
        else
          .ok (calls', full_data_set)

end MoralisOld

/-! ## Offset pagination (`TatumAPIinteractions.__get_full_data_set_from_api`,
`src/class_api_interactions_tatum.py` lines 145–174)

The provider maps the call index to the decoded page (`none` = transport or
decode failure).  Python's `if one_page_data:` is truthiness: `None` and the
empty list are falsy. -/

namespace Tatum

/-- The `while there_are_likely_more_results` loop: issues a call at the
current `offset`, and while the page is truthy appends it and advances the
offset by `num_items_per_page`.  Returns (offset parameter of each issued
call, accumulated records). -/
def paginationLoop {α : Type} (provider : ℕ → Option (List α))
    (num_items_per_page : ℕ) :
    ℕ → ℕ → ℕ → List ℕ → List α → Except PyError (List ℕ × List α)
  | 0, _, _, _, _ => .error .outOfFuel
  | fuel + 1, i, offset, calls, full_data_set =>
    let one_page_data := provider i
    let calls' := calls ++ [offset]
    match one_page_data with
    | some l =>
      if l.isEmpty then .ok (calls', full_data_set)
      else
        paginationLoop provider num_items_per_page fuel (i + 1)
          (offset + num_items_per_page) calls' (full_data_set ++ l)
    | none => .ok (calls', full_data_set)

/-- `__get_full_data_set_from_api`: the loop (initial offset 0) followed by the
`return_as` dispatch. -/
def get_full_data_set_from_api {α : Type} (provider : ℕ → Option (List α))
    (num_items_per_page fuel : ℕ) (return_as : String) :
    Except PyError (Option (PaginationReturn α)) :=
  match paginationLoop provider num_items_per_page fuel 0 0 [] [] with
  | .error e => .error e
  | .ok r => .ok (shapeReturn return_as r.2)

end Tatum

/-! ## Bulk per-item retry (`SeleniumOnOpensea.get_many_nfts_properties`,
`src/class_selenium_opensea.py` lines 51–114)

The per-item scrape `get_an_nfts_properties` is an external operation, modelled
as an oracle from the item and the attempt (pass) number to `some props`
(returned normally, appended to the results — the returned dict carries the
item as its `token_id` entry, so results are `(item, props)` pairs) or `none`
(raised; the item stays in the retry list).  With distinct items, removing an
item from the tracking list on success makes each pass's retry list the failed
items of the current pass in order. -/

namespace SeleniumOnOpensea

/-- One `for item in token_ids` pass at the given attempt number: returns
(results appended this pass, items still failing in order, attempts made in
this pass as (attempt, item) pairs). -/
def processPass {α β : Type} (oracle : α → ℕ → Option β) (attempt : ℕ) :
    List α → List (α × β) × List α × List (ℕ × α)
  | [] => ([], [], [])
  | x :: rest =>
    let r := processPass oracle attempt rest
    match oracle x attempt with
    | some b => ((x, b) :: r.1, r.2.1, (attempt, x) :: r.2.2)
    | none => (r.1, x :: r.2.1, (attempt, x) :: r.2.2)

/-- The `while list_for_success_tracking and attempt_number <= 3` loop.
Arguments: fuel, `attempt_number`, the current token list.  Returns
(accumulated results, items still failing at exit, full attempts trace). -/
def retryWhile {α β : Type} (oracle : α → ℕ → Option β) :
    ℕ → ℕ → List α → List (α × β) × List α × List (ℕ × α)
  | 0, _, cur => ([], cur, [])
  | fuel + 1, attempt_number, cur =>
    if cur.isEmpty ∨ 3 < attempt_number then ([], cur, [])
    else
      let p := processPass oracle attempt_number cur
      let rest := retryWhile oracle fuel (attempt_number + 1) p.2.1
      (p.1 ++ rest.1, rest.2.1, p.2.2 ++ rest.2.2)

/-- `get_many_nfts_properties`: up to 3 passes starting at attempt 1 (fuel 4
covers the guard exit at attempt 4). -/
def get_many_nfts_properties {α β : Type} (oracle : α → ℕ → Option β)
    (token_ids : List α) : List (α × β) × List α × List (ℕ × α) :=
  retryWhile oracle 4 1 token_ids

end SeleniumOnOpensea

/-! ## Concrete scenario providers used by counterexamples -/

/-- Cursor scenario of claim C1: three pages with cursors `"c1"`, `"c2"`, `""`,
result sizes 10, 10, 5, total 25. -/
def c1Provider : ℕ → Option (MoralisResp ℕ) := fun i =>
  if i = 0 then some ⟨some 25, some (List.range 10), some "c1"⟩
  else if i = 1 then some ⟨some 25, some (List.range 10), some "c2"⟩
  else if i = 2 then some ⟨some 25, some (List.range 5), some ""⟩
  else none

/-- Scenario of claim C2: a good first page, then a call whose response failed
to decode (the executor returned `None`). -/
def c2Provider : ℕ → Option (MoralisResp ℕ) := fun i =>
  if i = 0 then some ⟨some 25, some (List.range 10), some "c1"⟩
  else none

/-- Second scenario of claim C2: a good first page, then a decoded response
that omits the `cursor` field entirely. -/
def c2ProviderB : ℕ → Option (MoralisResp ℕ) := fun i =>
  if i = 0 then some ⟨some 25, some (List.range 10), some "c1"⟩
  else if i = 1 then some ⟨some 25, some (List.range 10), none⟩
  else none

/-- Retry scenario of claim C9: item 3 fails (raises) on pass 1 and succeeds
from pass 2 on; every other item succeeds immediately. -/
def c9Oracle : ℕ → ℕ → Option ℕ := fun x q =>
  if x = 3 ∧ q = 1 then none else some (10 * x)

/-! # Theorems

## Progress tracker (claims C6, C7) -/
set_option maxRecDepth 40000 in
set_option maxHeartbeats 1000000 in
/-- **C6** (amended): for a tracker configured with step 10% and total 100,
feeding it processed counts 1, 2, ..., 100 sequentially emits exactly 11
progress events, at counts 1, 11, 21, 31, 41, 51, 61, 71, 80, 90, 100.  Under
IEEE binary64 arithmetic the threshold accumulated by repeatedly adding the
double 0.1 falls one ulp short of 0.8, 0.9 and 1.0 (0.7999999999999999,
0.8999999999999999, 0.9999999999999999), so counts 80, 90 and 100 also emit —
each event is still at or just past a multiple of 10, an event fires only when
`counter / total` strictly exceeds the threshold (the definition of
`update_progress`), and the threshold trace is monotonically non-decreasing
across the run. -/
theorem C6_progress_threshold_emission_amended :
    ((trackerRun (PercentTracker.init (F64.ofNat 100) (F64.ofNat 10) F64.zero)
        (List.range' 1 100)).toOption.map (fun r => r.2.1) =
      some [1, 11, 21, 31, 41, 51, 61, 71, 80, 90, 100])
    ∧ ((trackerRun (PercentTracker.init (F64.ofNat 100) (F64.ofNat 10) F64.zero)
        (List.range' 1 100)).toOption.map (fun r => r.2.1.length) = some 11)
    ∧ ((trackerRun (PercentTracker.init (F64.ofNat 100) (F64.ofNat 10) F64.zero)
        (List.range' 1 100)).toOption.map (fun r => F64.leChain r.2.2) =
      some true) := by
  refine ⟨?_, ?_, ?_⟩ <;> rfl

set_option maxRecDepth 40000 in
set_option maxHeartbeats 1000000 in
/-- Counterexample to **C6** as stated: the run over counts 1..100 emits 11
progress events, not 10 — the float thresholds 0.7999999999999999,
0.8999999999999999 and 0.9999999999999999 admit extra emissions at counts 80,
90 and 100. -/
theorem C6_progress_threshold_emission_counterexample :
    ((trackerRun (PercentTracker.init (F64.ofNat 100) (F64.ofNat 10) F64.zero)
        (List.range' 1 100)).toOption.map (fun r => r.2.1.length) = some 11)
    ∧ (11 : ℕ) ≠ 10 := by
  refine ⟨rfl, by decide⟩

/-- **C7** (code bug): `PercentTracker.__init__` accepts `total = 0` without
failing, but performs no zero-total short-circuit: the very next
`update_progress` call evaluates `counter / self.max_loop_number` with a zero
denominator and raises `ZeroDivisionError`, so an update of a zero-total
tracker does divide by zero, contrary to the claim. -/
theorem C7_zero_total_update_divides_by_zero :
    (PercentTracker.init (F64.ofNat 0) (F64.ofNat 10) F64.zero).update_progress
      (F64.ofNat 1) F64.zero false = .error .zeroDivisionError := by
  rfl

/-! ## Rate limiter (claims C3, C8) -/

lemma wait_until_allowed_fst_ge (t : Timer) (now : ℚ) :
    t.start_time + t.limit_as_decimal ≤ (t.wait_until_allowed now true).1 := by
  by_cases h : now - t.start_time < t.limit_as_decimal
  · simp [Timer.wait_until_allowed, h]
    linarith
  · simp [Timer.wait_until_allowed, h]
    linarith

lemma wait_until_allowed_true_snd (t : Timer) (now : ℚ) :
    (t.wait_until_allowed now true).2 =
      ⟨(t.wait_until_allowed now true).1, t.limit_as_decimal⟩ := rfl

lemma gatedCallTimes_chain' (t : Timer) (now : ℚ) (ws : List ℚ) :
    (gatedCallTimes t now ws).Chain' (fun a b => a + t.limit_as_decimal ≤ b) := by
  induction ws generalizing t now with
  | nil => simp [gatedCallTimes]
  | cons w ws ih =>
    rw [gatedCallTimes]
    rw [List.chain'_cons']
    constructor
    · intro b hb
      cases ws with
      | nil => simp [gatedCallTimes] at hb
      | cons w' ws' =>
        rw [gatedCallTimes] at hb
        simp only [List.head?_cons, Option.mem_def, Option.some.injEq] at hb
        subst hb
        have hge := wait_until_allowed_fst_ge
          ((t.wait_until_allowed (now + w) true).2)
          ((t.wait_until_allowed (now + w) true).1 + w')
        rw [wait_until_allowed_true_snd] at hge
        exact hge
    · have h2 := ih (t.wait_until_allowed (now + w) true).2
        (t.wait_until_allowed (now + w) true).1
      rw [wait_until_allowed_true_snd] at h2
      exact h2

lemma getLastD_cons_default (y x : ℚ) (m : List ℚ) :
    (y :: m).getLastD x = (y :: m).getLastD 0 := rfl

lemma chain'_headD_getLastD (I : ℚ) :
    ∀ (l : List ℚ), l.Chain' (fun a b => a + I ≤ b) →
      l.headD 0 + ((l.length - 1 : ℕ) : ℚ) * I ≤ l.getLastD 0
  | [] => by intro _; simp
  | [a] => by intro _; simp
  | a :: b :: l => by
    intro hch
    rw [List.chain'_cons] at hch
    have ih := chain'_headD_getLastD I (b :: l) hch.2
    have hab := hch.1
    have hlast : (a :: b :: l).getLastD 0 = (b :: l).getLastD 0 := rfl
    rw [hlast]
    simp only [List.headD_cons, List.length_cons, Nat.add_sub_cancel] at ih ⊢
    push_cast at ih ⊢
    nlinarith [ih, hab]

/-- **C3**: for any rate limiter and any sequence of gated calls (each preceded
by arbitrary extra caller work `w` and issued through
`wait_until_allowed(include_reset=True)`), consecutive call instants are at
least the configured interval apart (so at least the interval of actual wall
time separates a call from the previous reset), and the whole sequence of `N`
calls spans at least `(N − 1)` times the interval. -/
theorem C3_rate_limiter_spacing (t : Timer) (now : ℚ) (ws : List ℚ) :
    ((gatedCallTimes t now ws).Chain'
      (fun a b => a + t.limit_as_decimal ≤ b))
    ∧ (gatedCallTimes t now ws).headD 0 +
        (((gatedCallTimes t now ws).length - 1 : ℕ) : ℚ) * t.limit_as_decimal ≤
        (gatedCallTimes t now ws).getLastD 0 :=
  ⟨gatedCallTimes_chain' t now ws,
   chain'_headD_getLastD _ _ (gatedCallTimes_chain' t now ws)⟩

/-- **C8** (amended): only a zero rate is reported at construction
(`ZeroDivisionError` from `1 / rate_limit`); every nonzero rate — positive or
negative — is accepted, with interval `1 / rate`. -/
theorem C8_timer_construction_amended (r : ℚ) :
    (r = 0 → Timer.init r = .error .zeroDivisionError)
    ∧ (r ≠ 0 → Timer.init r = .ok ⟨0, 1 / r⟩) := by
  constructor
  · intro h
    simp [Timer.init, h]
  · intro h
    simp [Timer.init, h]

/-- Witness for C8 (amended): a positive rate constructs successfully with
interval `1/rate`. -/
theorem C8_timer_construction_witness :
    ((5 : ℚ) ≠ 0) ∧ Timer.init 5 = .ok ⟨0, 1 / 5⟩ :=
  ⟨by norm_num, (C8_timer_construction_amended 5).2 (by norm_num)⟩

/-- Counterexample to **C8** as stated: `-1` is a non-positive rate, yet
construction does not report a configuration error — it succeeds, silently
storing the negative interval `1 / (-1) = -1`. -/
theorem C8_timer_construction_counterexample :
    ((-1 : ℚ) ≤ 0) ∧ Timer.init (-1) = .ok ⟨0, -1⟩ := by
  refine ⟨by norm_num, ?_⟩
  rw [Timer.init, if_neg (by norm_num : ¬((-1 : ℚ) = 0))]
  norm_num [Timer.mk.injEq]

/-! ## Cursor pagination (claims C1, C2) -/

theorem C1_cursor_pagination_amended {α : Type} (r1 r2 r3 : List α) (t1 t2 t3 : ℤ)
    (h1 : r1.length = 10) (h2 : r2.length = 10) (h3 : r3.length = 5)
    (ht1 : 0 < t1) (ht2 : 0 < t2) (ht3 : 0 < t3)
    (provider : ℕ → Option (MoralisResp α))
    (hp0 : provider 0 = some ⟨some t1, some r1, some "c1"⟩)
    (hp1 : provider 1 = some ⟨some t2, some r2, some "c2"⟩)
    (hp2 : provider 2 = some ⟨some t3, some r3, some ""⟩)
    (fuel : ℕ) :
    (Moralis.paginationLoop provider (fuel + 3) 0 none [] [] =
      .ok ([none, some "c1", some "c2"], r1 ++ r2 ++ r3))
    ∧ (r1 ++ r2 ++ r3).length = 25
    ∧ (MoralisOld.paginationLoop provider (fuel + 3) 0 none true [] [] =
      .ok ([none, some "c1", some "c2"], r1 ++ r2))
    ∧ (r1 ++ r2).length = 20 := by
  refine ⟨?_, by simp [h1, h2, h3], ?_, by simp [h1, h2]⟩
  · show Moralis.paginationLoop provider (fuel + 2 + 1) 0 none [] [] = _
    rw [Moralis.paginationLoop, hp0]
    simp only [pyItem, ht1, if_pos, List.nil_append]
    norm_num
    show Moralis.paginationLoop provider (fuel + 1 + 1) 1 (some "c1") r1 [none] = _
    rw [Moralis.paginationLoop, hp1]
    simp only [pyItem, ht2, if_pos]
    norm_num
    show Moralis.paginationLoop provider (fuel + 0 + 1) 2 (some "c2") (r1 ++ r2)
      [none, some "c1"] = _
    rw [Moralis.paginationLoop, hp2]
    simp only [pyItem, ht3, if_pos]
    norm_num
  · show MoralisOld.paginationLoop provider (fuel + 2 + 1) 0 none true [] [] = _
    rw [MoralisOld.paginationLoop, hp0]
    simp only [pyItem]
    norm_num
    show MoralisOld.paginationLoop provider (fuel + 1 + 1) 1 (some "c1") false r1 [none] = _
    rw [MoralisOld.paginationLoop, hp1]
    simp only [pyItem]
    norm_num
    show MoralisOld.paginationLoop provider (fuel + 0 + 1) 2 (some "c2") false (r1 ++ r2)
      [none, some "c1"] = _
    rw [MoralisOld.paginationLoop, hp2]
    simp only [pyItem]
    norm_num

/-- Witness for C1 (amended): the concrete three-page scenario, run on both
implementations. -/
theorem C1_cursor_pagination_witness :
    ((List.range 10).length = 10 ∧ (List.range 5).length = 5 ∧ (0 : ℤ) < 25)
    ∧ (Moralis.paginationLoop c1Provider 3 0 none [] [] =
        .ok ([none, some "c1", some "c2"],
             List.range 10 ++ List.range 10 ++ List.range 5))
    ∧ (MoralisOld.paginationLoop c1Provider 3 0 none true [] [] =
        .ok ([none, some "c1", some "c2"], List.range 10 ++ List.range 10)) :=
  have h := C1_cursor_pagination_amended (List.range 10) (List.range 10)
    (List.range 5) 25 25 25 (by decide) (by decide) (by decide)
    (by decide) (by decide) (by decide) c1Provider rfl rfl rfl 0
  ⟨⟨by decide, by decide, by decide⟩, h.1, h.2.2.1⟩

/-- Counterexample to **C1** as stated: on the three-page scenario (sizes
10, 10, 5, cursors `"c1"`, `"c2"`, `""`) the older implementation in
`src/api_interaction_classes/class_api_interactions_moralis.py` issues the
same 3 calls but returns only 20 records, not 25 — the final page, whose
cursor is empty, is never appended. -/
theorem C1_cursor_pagination_counterexample :
    (MoralisOld.paginationLoop c1Provider 3 0 none true [] []).map
        (fun r => (r.1, r.2.length)) =
      .ok ([none, some "c1", some "c2"], 20) ∧ (20 : ℕ) ≠ 25 := by
  constructor
  · rfl
  · decide

theorem C2_pagination_fault_amended {α : Type}
    (provider providerB : ℕ → Option (MoralisResp α))
    (t0 : ℤ) (l0 : List α) (ht : 0 < t0)
    (hA0 : provider 0 = some ⟨some t0, some l0, some "c1"⟩)
    (hA1 : provider 1 = none)
    (hB0 : providerB 0 = some ⟨some t0, some l0, some "c1"⟩)
    (hB1 : providerB 1 = some ⟨some t0, some l0, none⟩)
    (fuel : ℕ) :
    (Moralis.paginationLoop provider (fuel + 2) 0 none [] [] = .error .typeError)
    ∧ (Moralis.paginationLoop providerB (fuel + 2) 0 none [] [] =
        .error (.keyError "cursor")) := by
  constructor
  · show Moralis.paginationLoop provider (fuel + 1 + 1) 0 none [] [] = _
    rw [Moralis.paginationLoop, hA0]
    simp only [pyItem, ht, if_pos]
    norm_num
    show Moralis.paginationLoop provider (fuel + 0 + 1) 1 (some "c1") l0 [none] = _
    rw [Moralis.paginationLoop, hA1]
    simp [pyItem]
  · show Moralis.paginationLoop providerB (fuel + 1 + 1) 0 none [] [] = _
    rw [Moralis.paginationLoop, hB0]
    simp only [pyItem, ht, if_pos]
    norm_num
    show Moralis.paginationLoop providerB (fuel + 0 + 1) 1 (some "c1") l0 [none] = _
    rw [Moralis.paginationLoop, hB1]
    simp only [pyItem, ht, if_pos]

/-- Witness for C2 (amended): both fault scenarios at concrete providers. -/
theorem C2_pagination_fault_witness :
    ((0 : ℤ) < 25)
    ∧ (Moralis.paginationLoop c2Provider 2 0 none [] [] = .error .typeError)
    ∧ (Moralis.paginationLoop c2ProviderB 2 0 none [] [] =
        .error (.keyError "cursor")) :=
  have h := C2_pagination_fault_amended c2Provider c2ProviderB 25 (List.range 10)
    (by decide) rfl rfl rfl rfl 0
  ⟨by decide, h.1, h.2⟩

/-- Counterexample to **C2** as stated: after one good page, a response that
fails to decode makes the loop raise an uncaught `TypeError` (subscripting
`None`); no partial result is returned. -/
theorem C2_pagination_fault_counterexample :
    (Moralis.paginationLoop c2Provider 2 0 none [] [] = .error .typeError)
    ∧ ¬ ∃ v, Moralis.paginationLoop c2Provider 2 0 none [] [] = .ok v := by
  refine ⟨rfl, ?_⟩
  rintro ⟨v, hv⟩
  have he : Moralis.paginationLoop c2Provider 2 0 none [] [] =
      .error .typeError := rfl
  rw [he] at hv
  cases hv

/-! ## Offset pagination (claim C4) -/

/-- **C4**: with page size 50 and provider pages of sizes 50, 50, 0, the Tatum
offset-pagination loop issues exactly 3 calls at offsets 0, 50, 100, stops on
the first empty page, and accumulates 100 records. -/
theorem C4_offset_pagination {α : Type} (provider : ℕ → Option (List α))
    (p1 p2 : List α)
    (hp0 : provider 0 = some p1) (hp1 : provider 1 = some p2)
    (hp2 : provider 2 = some [])
    (h1 : p1.length = 50) (h2 : p2.length = 50) (fuel : ℕ) :
    (Tatum.paginationLoop provider 50 (fuel + 3) 0 0 [] [] =
      .ok ([0, 50, 100], p1 ++ p2))
    ∧ (p1 ++ p2).length = 100 := by
  have e1 : p1.isEmpty = false := by cases p1 <;> simp_all
  have e2 : p2.isEmpty = false := by cases p2 <;> simp_all
  refine ⟨?_, by simp [h1, h2]⟩
  show Tatum.paginationLoop provider 50 (fuel + 2 + 1) 0 0 [] [] = _
  rw [Tatum.paginationLoop, hp0]
  simp only [e1, Bool.false_eq_true, if_false, List.nil_append]
  norm_num
  show Tatum.paginationLoop provider 50 (fuel + 1 + 1) 1 50 [0] p1 = _
  rw [Tatum.paginationLoop, hp1]
  simp only [e2, Bool.false_eq_true, if_false]
  norm_num
  show Tatum.paginationLoop provider 50 (fuel + 0 + 1) 2 100 [0, 50] (p1 ++ p2) = _
  rw [Tatum.paginationLoop, hp2]
  simp

/-- Witness for C4: concrete pages `List.range 50` twice, then an empty page. -/
theorem C4_offset_pagination_witness :
    ((List.range 50).length = 50)
    ∧ (Tatum.paginationLoop
        (fun i => if i = 0 then some (List.range 50)
                  else if i = 1 then some (List.range 50)
                  else if i = 2 then some []
                  else none) 50 3 0 0 [] [] =
      .ok ([0, 50, 100], List.range 50 ++ List.range 50))
    ∧ (List.range 50 ++ List.range 50).length = 100 :=
  have h := C4_offset_pagination
    (fun i => if i = 0 then some (List.range 50)
              else if i = 1 then some (List.range 50)
              else if i = 2 then some []
              else none)
    (List.range 50) (List.range 50) rfl rfl rfl (by decide) (by decide) 0
  ⟨by decide, h.1, h.2⟩

/-! ## Single-call executor (claim C5) -/

/-- **C5**: a call type outside {get, post, put, delete} makes
`__make_one_api_call` return `None` before the rate limiter is consulted and
before any network operation: the timer state and clock are unchanged, and
neither `wait_until_allowed` nor the network function runs. -/
theorem C5_invalid_call_type {β : Type}
    (net : HttpMethod → List String → Except Unit (RawResponse β))
    (api_url call_type call_body : String) (timer : Timer) (now : ℚ)
    (h1 : call_type ≠ "get") (h2 : call_type ≠ "post")
    (h3 : call_type ≠ "put") (h4 : call_type ≠ "delete") :
    make_one_api_call net api_url call_type call_body timer now =
      { response := none, timer := timer, now := now
        consulted_rate_limiter := false, network_attempted := false } := by
  simp [make_one_api_call, organize_api_call_method_and_arguments, h1, h2, h3, h4]

/-- Witness for C5: the unsupported call type `"patch"` consumes no rate-limit
slot. -/
theorem C5_invalid_call_type_witness :
    (("patch" : String) ≠ "get" ∧ ("patch" : String) ≠ "post"
      ∧ ("patch" : String) ≠ "put" ∧ ("patch" : String) ≠ "delete")
    ∧ make_one_api_call (β := ℕ) (fun _ _ => .error ()) "https://x" "patch" ""
        ⟨0, 1 / 5⟩ 7 =
      { response := none, timer := ⟨0, 1 / 5⟩, now := 7
        consulted_rate_limiter := false, network_attempted := false } :=
  ⟨⟨by decide, by decide, by decide, by decide⟩,
   C5_invalid_call_type _ _ _ _ _ _
     (by decide) (by decide) (by decide) (by decide)⟩

/-! ## Return-as dispatch (claim C10) -/

/-- **C10**: when `return_as` contains neither `"dataframe"` nor `"list"` as a
substring, a completed pagination fetch (cursor or offset) falls off the end of
the `if/elif` and returns `None`: the accumulated records are discarded with no
error raised. -/
theorem C10_invalid_return_as {α : Type} (return_as : String)
    (h1 : strContains return_as "dataframe" = false)
    (h2 : strContains return_as "list" = false)
    (providerM : ℕ → Option (MoralisResp α)) (providerT : ℕ → Option (List α))
    (pageSize fuelM fuelT : ℕ)
    (rM : List (Option String) × List α) (rT : List ℕ × List α)
    (hM : Moralis.paginationLoop providerM fuelM 0 none [] [] = .ok rM)
    (hT : Tatum.paginationLoop providerT pageSize fuelT 0 0 [] [] = .ok rT) :
    (Moralis.get_full_data_set_from_api providerM fuelM return_as = .ok none)
    ∧ (Tatum.get_full_data_set_from_api providerT pageSize fuelT return_as =
        .ok none) := by
  constructor
  · rw [Moralis.get_full_data_set_from_api, hM]
    simp [shapeReturn, h1, h2]
  · rw [Tatum.get_full_data_set_from_api, hT]
    simp [shapeReturn, h1, h2]

/-- Witness for C10: `return_as = "json"` discards 25 accumulated Moralis
records and an empty Tatum run alike, returning `None` with no error. -/
theorem C10_invalid_return_as_witness :
    (strContains "json" "dataframe" = false ∧ strContains "json" "list" = false)
    ∧ (Moralis.get_full_data_set_from_api c1Provider 3 "json" = .ok none)
    ∧ (Tatum.get_full_data_set_from_api (fun _ => (none : Option (List ℕ)))
        50 1 "json" = .ok none) :=
  have h := C10_invalid_return_as "json" (by decide) (by decide)
    c1Provider (fun _ => none) 50 3 1
    ([none, some "c1", some "c2"], List.range 10 ++ List.range 10 ++ List.range 5)
    ([0], []) rfl rfl
  ⟨⟨by decide, by decide⟩, h.1, h.2⟩

/-! ## Bulk per-item retry (claim C9) -/

namespace SeleniumOnOpensea

lemma processPass_failures {α β : Type} (oracle : α → ℕ → Option β) (a : ℕ)
    (cur : List α) :
    (processPass oracle a cur).2.1 = cur.filter (fun x => (oracle x a).isNone) := by
  induction cur with
  | nil => rfl
  | cons x rest ih =>
    rw [processPass]
    cases h : oracle x a <;> simp [h, ih]

lemma processPass_trace {α β : Type} (oracle : α → ℕ → Option β) (a : ℕ)
    (cur : List α) :
    (processPass oracle a cur).2.2 = cur.map (fun x => (a, x)) := by
  induction cur with
  | nil => rfl
  | cons x rest ih =>
    rw [processPass]
    cases h : oracle x a <;> simp [h, ih]

lemma processPass_results_fst {α β : Type} (oracle : α → ℕ → Option β) (a : ℕ)
    (cur : List α) :
    ((processPass oracle a cur).1).map Prod.fst =
      cur.filter (fun x => (oracle x a).isSome) := by
  induction cur with
  | nil => rfl
  | cons x rest ih =>
    rw [processPass]
    cases h : oracle x a <;> simp [h, ih]

lemma retryWhile_trace_mem {α β : Type} (oracle : α → ℕ → Option β) :
    ∀ (fuel a : ℕ) (cur : List α) (p : ℕ) (x : α),
      ((p, x) ∈ (retryWhile oracle fuel a cur).2.2) ↔
        (a ≤ p ∧ p ≤ 3 ∧ p < a + fuel ∧ x ∈ cur ∧
          ∀ q, a ≤ q → q < p → oracle x q = none) := by
  intro fuel
  induction fuel with
  | zero =>
    intro a cur p x
    simp only [retryWhile, List.not_mem_nil, false_iff]
    rintro ⟨h1, _, h3, _⟩
    omega
  | succ fuel ih =>
    intro a cur p x
    rw [retryWhile]
    by_cases hg : cur.isEmpty = true ∨ 3 < a
    · rw [if_pos hg]
      simp only [List.not_mem_nil, false_iff]
      rintro ⟨h1, h2, _, h4, _⟩
      rcases hg with hg | hg
      · rw [List.isEmpty_iff] at hg
        subst hg
        exact absurd h4 (List.not_mem_nil x)
      · omega
    · rw [if_neg hg]
      push_neg at hg
      obtain ⟨hne, ha3⟩ := hg
      simp only [List.mem_append, processPass_trace, processPass_failures,
        List.mem_map, ih (a + 1), List.mem_filter, Option.isNone_iff_eq_none]
      constructor
      · rintro (⟨y, hy, heq⟩ | ⟨h1, h2, h3, ⟨h4, h4'⟩, h5⟩)
        · injection heq with hp hx
          subst hp
          subst hx
          exact ⟨le_refl _, by omega, by omega, hy,
            fun q hq1 hq2 => absurd hq1 (by omega)⟩
        · refine ⟨by omega, h2, by omega, h4, fun q hq1 hq2 => ?_⟩
          rcases Nat.eq_or_lt_of_le hq1 with rfl | hq
          · exact h4'
          · exact h5 q (by omega) hq2
      · rintro ⟨h1, h2, h3, h4, h5⟩
        rcases Nat.eq_or_lt_of_le h1 with rfl | hpa
        · exact Or.inl ⟨x, h4, rfl⟩
        · exact Or.inr ⟨by omega, h2, by omega, ⟨h4, h5 a (le_refl a) hpa⟩,
            fun q hq1 hq2 => h5 q (by omega) hq2⟩

lemma count_filter_of_pos {γ : Type} [DecidableEq γ] (pb : γ → Bool)
    (l : List γ) (x : γ) (h : pb x = true) :
    (l.filter pb).count x = l.count x :=
  List.count_filter h

lemma retryWhile_count_not_mem {α β : Type} [DecidableEq α]
    (oracle : α → ℕ → Option β) :
    ∀ (fuel a : ℕ) (cur : List α) (x : α), x ∉ cur →
      (((retryWhile oracle fuel a cur).1).map Prod.fst).count x = 0 := by
  intro fuel
  induction fuel with
  | zero =>
    intro a cur x _
    simp [retryWhile]
  | succ fuel ih =>
    intro a cur x hx
    rw [retryWhile]
    by_cases hg : cur.isEmpty = true ∨ 3 < a
    · rw [if_pos hg]
      simp
    · rw [if_neg hg]
      simp only [List.map_append, List.count_append, processPass_results_fst,
        processPass_failures]
      have h1 : x ∉ cur.filter (fun y => (oracle y a).isSome) :=
        fun hmem => hx (List.mem_of_mem_filter hmem)
      have h2 : x ∉ cur.filter (fun y => (oracle y a).isNone) :=
        fun hmem => hx (List.mem_of_mem_filter hmem)
      rw [List.count_eq_zero_of_not_mem h1,
        ih (a + 1) (cur.filter (fun y => (oracle y a).isNone)) x h2]

lemma retryWhile_count_success {α β : Type} [DecidableEq α]
    (oracle : α → ℕ → Option β) :
    ∀ (fuel a : ℕ) (cur : List α), cur.Nodup → ∀ (x : α) (p : ℕ),
      a ≤ p → p ≤ 3 → p < a + fuel →
      (∀ q, a ≤ q → q < p → oracle x q = none) → (oracle x p).isSome →
      x ∈ cur →
      (((retryWhile oracle fuel a cur).1).map Prod.fst).count x = 1 := by
  intro fuel
  induction fuel with
  | zero =>
    intro a cur _ x p h1 _ h3 _ _ _
    omega
  | succ fuel ih =>
    intro a cur hnd x p h1 h2 h3 hfail hsucc hmem
    rw [retryWhile]
    by_cases hg : cur.isEmpty = true ∨ 3 < a
    · rcases hg with hg | hg
      · rw [List.isEmpty_iff] at hg
        subst hg
        exact absurd hmem (List.not_mem_nil x)
      · omega
    · rw [if_neg hg]
      simp only [List.map_append, List.count_append, processPass_results_fst,
        processPass_failures]
      rcases Nat.eq_or_lt_of_le h1 with rfl | hpa
      · -- succeeds in this very pass
        have hcond : ((fun y => (oracle y a).isSome) x) = true := hsucc
        have hnm : x ∉ cur.filter (fun y => (oracle y a).isNone) := by
          intro hmemf
          have h5 := (List.mem_filter.mp hmemf).2
          rw [Option.isNone_iff_eq_none] at h5
          rw [h5] at hsucc
          cases hsucc
        rw [count_filter_of_pos (fun y => (oracle y a).isSome) cur x hsucc,
          List.count_eq_one_of_mem hnd hmem,
          retryWhile_count_not_mem oracle fuel (a + 1) _ x hnm]
      · -- fails in this pass, succeeds later
        have hnone : oracle x a = none := hfail a (le_refl a) hpa
        have hcount0 : (cur.filter (fun y => (oracle y a).isSome)).count x = 0 := by
          apply List.count_eq_zero_of_not_mem
          intro hmemf
          have := (List.mem_filter.mp hmemf).2
          rw [hnone] at this
          cases this
        rw [hcount0]
        rw [ih (a + 1) _ (hnd.filter _) x p (by omega) h2 (by omega)
          (fun q hq1 hq2 => hfail q (by omega) hq2) hsucc
          (List.mem_filter.mpr ⟨hmem, by rw [hnone]; rfl⟩)]

lemma retryWhile_count_all_fail {α β : Type} [DecidableEq α]
    (oracle : α → ℕ → Option β) :
    ∀ (fuel a : ℕ) (cur : List α) (x : α),
      (∀ q, a ≤ q → q ≤ 3 → oracle x q = none) →
      (((retryWhile oracle fuel a cur).1).map Prod.fst).count x = 0 := by
  intro fuel
  induction fuel with
  | zero =>
    intro a cur x _
    simp [retryWhile]
  | succ fuel ih =>
    intro a cur x hfail
    rw [retryWhile]
    by_cases hg : cur.isEmpty = true ∨ 3 < a
    · rw [if_pos hg]
      simp
    · rw [if_neg hg]
      push_neg at hg
      simp only [List.map_append, List.count_append, processPass_results_fst,
        processPass_failures]
      have hnone : oracle x a = none := hfail a (le_refl a) (by omega)
      have hcount0 : (cur.filter (fun y => (oracle y a).isSome)).count x = 0 := by
        apply List.count_eq_zero_of_not_mem
        intro hmemf
        have := (List.mem_filter.mp hmemf).2
        rw [hnone] at this
        cases this
      rw [hcount0, ih (a + 1) _ x (fun q hq1 hq2 => hfail q (by omega) hq2)]

end SeleniumOnOpensea

/-- **C9**: the bulk retry runner performs at most 3 passes; an item is
attempted in pass `p` iff it is a work item, `1 ≤ p ≤ 3`, and every earlier
attempt of it failed (so an item that succeeds is never attempted again); an
item whose first success falls within the 3 passes contributes exactly one
entry to the final result (entries carry their item as `token_id`); and an
item failing all 3 passes contributes nothing — it is absent from the result,
which carries no error signal. -/
theorem C9_bulk_retry {α β : Type} [DecidableEq α] (oracle : α → ℕ → Option β)
    (token_ids : List α) (hnd : token_ids.Nodup) :
    (∀ p x,
      ((p, x) ∈ (SeleniumOnOpensea.get_many_nfts_properties oracle token_ids).2.2)
        ↔ (x ∈ token_ids ∧ 1 ≤ p ∧ p ≤ 3 ∧
            ∀ q, 1 ≤ q → q < p → oracle x q = none))
    ∧ (∀ x p, 1 ≤ p → p ≤ 3 →
        (∀ q, 1 ≤ q → q < p → oracle x q = none) →
        (oracle x p).isSome → x ∈ token_ids →
        (((SeleniumOnOpensea.get_many_nfts_properties oracle token_ids).1).map
            Prod.fst).count x = 1)
    ∧ (∀ x, (∀ q, 1 ≤ q → q ≤ 3 → oracle x q = none) →
        (((SeleniumOnOpensea.get_many_nfts_properties oracle token_ids).1).map
            Prod.fst).count x = 0) := by
  refine ⟨fun p x => ?_, fun x p h1 h2 h3 h4 h5 => ?_, fun x h => ?_⟩
  · rw [SeleniumOnOpensea.get_many_nfts_properties,
      SeleniumOnOpensea.retryWhile_trace_mem]
    constructor
    · rintro ⟨h1, h2, _, h4, h5⟩
      exact ⟨h4, h1, h2, h5⟩
    · rintro ⟨h1, h2, h3, h4⟩
      exact ⟨h2, h3, by omega, h1, h4⟩
  · exact SeleniumOnOpensea.retryWhile_count_success oracle 4 1 token_ids hnd
      x p h1 h2 (by omega) h3 h4 h5
  · exact SeleniumOnOpensea.retryWhile_count_all_fail oracle 4 1 token_ids x h

/-- Witness for C9: items `[1, 2, 3]` where item 3 raises on pass 1 and
succeeds on pass 2 — it is attempted in pass 2, and contributes exactly one
result entry; the all-fail conjunct applied to the non-item 7. -/
theorem C9_bulk_retry_witness :
    (([1, 2, 3] : List ℕ).Nodup)
    ∧ ((2, 3) ∈ (SeleniumOnOpensea.get_many_nfts_properties c9Oracle [1, 2, 3]).2.2)
    ∧ (((SeleniumOnOpensea.get_many_nfts_properties c9Oracle [1, 2, 3]).1).map
        Prod.fst).count 3 = 1 :=
  have h := C9_bulk_retry c9Oracle [1, 2, 3] (by decide)
  ⟨by decide,
   (h.1 2 3).mpr ⟨by decide, by decide, by decide,
     fun q hq1 hq2 => by
       have hq : q = 1 := by omega
       subst hq
       decide⟩,
   h.2.1 3 2 (by decide) (by decide)
     (fun q hq1 hq2 => by
       have hq : q = 1 := by omega
       subst hq
       decide)
     (by decide) (by decide)⟩
